import Mathlib

/-!
# Verification of the GPS image report renderer (src/main.py)

Shallow embedding of the deterministic core of the GPS image API:
data synthesis (`generate_gps_data`), chart-series synthesis and panel
layout (`draw_information_panels`), color mapping
(`get_windfinder_color`), and the two-tier chart rendering
(`create_pygal_chart` / `create_fallback_chart`).

Numeric inputs (latitude, longitude, scalar) are modelled as rationals;
the claims at issue concern exact arithmetic on seeds, ranges, layout
integers and truncation counts, all of which are representable over ℚ.

The Python `random` module is an external library, not part of this
repository; it is modelled by its documented interface contract: a
global generator state that `random.seed(n)` resets as a function of
|n| alone, from which `randint(a, b)` draws an integer in [a, b] and
`uniform(a, b)` draws a value in [a, b), each draw being a
deterministic function of the current state and advancing it.  The
concrete raw generator below is a linear congruential step, standing in
for the Mersenne Twister; every claim settled here depends only on the
contract (determinism from the seed, range containment, draw order),
never on the particular raw stream.
-/

/-- State of the global pseudo-random generator (models the state of
Python's `random` module between calls). -/
structure RandState where
  val : Nat
deriving DecidableEq, Repr

/-- One raw step of the modelled generator: a 31-bit linear
congruential step producing the next raw draw in [0, 2^31). -/
def randNext (st : RandState) : RandState :=
  ⟨(st.val * 1103515245 + 12345) % 2 ^ 31⟩

/-- `random.seed(n)` for an integer `n`: CPython seeds the Mersenne
Twister from the absolute value of `n`, so the state is a function of
`|n|` reduced into the generator's state space. -/
def seedState (n : ℤ) : RandState :=
  ⟨n.natAbs % 2 ^ 31⟩

/-- `random.randint(a, b)`: an integer draw in [a, b], consuming one
raw step of the generator (returns the draw and the advanced state). -/
def randIntStep (a b : ℤ) (st : RandState) : ℤ × RandState :=
  let st1 := randNext st
  (a + (st1.val : ℤ) % (b - a + 1), st1)

/-- `random.uniform(a, b)`: a draw in [a, b) (for a ≤ b), consuming one
raw step of the generator. -/
def uniformStep (a b : ℚ) (st : RandState) : ℚ × RandState :=
  let st1 := randNext st
  (a + (b - a) * (st1.val : ℚ) / 2 ^ 31, st1)

/-- Python `int(q)` on a real value: truncation toward zero. -/
def pythonInt (q : ℚ) : ℤ :=
  if 0 ≤ q then ⌊q⌋ else ⌈q⌉

/-- Python `q % m` on real values: the remainder has the sign of the
divisor, so for `m > 0` it is `q - m * ⌊q / m⌋ ∈ [0, m)`. -/
def pymod (q m : ℚ) : ℚ :=
  q - m * ⌊q / m⌋

/-- Python `round(x, 1)`: rounding to one decimal place (tie-breaking
at exact halves is immaterial to every claim settled here). -/
def round1 (q : ℚ) : ℚ :=
  (round (q * 10) : ℤ) / 10

/-- The MetricSet seed — src/main.py:309,
`random.seed(int((latitude * 1000 + longitude * 1000 + scalar * 100) % 1000))`. -/
def seedA (latitude longitude scalar : ℚ) : ℤ :=
  pythonInt (pymod (latitude * 1000 + longitude * 1000 + scalar * 100) 1000)

/-- The chart-series seed — src/main.py:406,
`random.seed(int(latitude * longitude * 1000))`. -/
def seedB (latitude longitude : ℚ) : ℤ :=
  pythonInt (latitude * longitude * 1000)

/-- The synthesized environmental metrics returned by
`generate_gps_data` (src/main.py:330-339).  `gps_position` is the
echoed coordinate pair (formatted as a string in the source). -/
structure MetricSet where
  gps_position : ℚ × ℚ
  fire_risk : ℤ
  height : ℤ
  landslide_risk : ℤ
  slope : ℤ
  temperature : ℚ
  rain_probability : ℤ
  wind_speed : ℤ
deriving DecidableEq, Repr

/-- The seven seeded draws of `generate_gps_data` (src/main.py:312-328)
in the source's order: height, fire_risk, landslide_risk, slope,
temperature (uniform, rounded to 1 decimal), rain_probability,
wind_speed. -/
def metricsFromSeed (n : ℤ) : MetricSet → MetricSet := fun base =>
  let s0 := seedState n
  let h := randIntStep 0 300 s0
  let f := randIntStep 0 5 h.2
  let l := randIntStep 0 5 f.2
  let sl := randIntStep 0 100 l.2
  let t := uniformStep 20 42 sl.2
  let r := randIntStep 0 100 t.2
  let w := randIntStep 0 25 r.2
  { base with
    height := h.1
    fire_risk := f.1
    landslide_risk := l.1
    slope := sl.1
    temperature := round1 t.1
    rain_probability := r.1
    wind_speed := w.1 }

/-- `generate_gps_data(latitude, longitude, scalar)`
(src/main.py:303-339): seeds the global generator with `seedA`, then
performs the seven draws.  The incoming generator state `st0` is the
arbitrary global state left by earlier activity; `random.seed`
overwrites it, so it is discarded. -/
def generate_gps_data (latitude longitude scalar : ℚ) (st0 : RandState) :
    MetricSet :=
  let _ := st0
  metricsFromSeed (seedA latitude longitude scalar)
    { gps_position := (latitude, longitude)
      fire_risk := 0, height := 0, landslide_risk := 0, slope := 0
      temperature := 0, rain_probability := 0, wind_speed := 0 }

/-- The five chart series and their label lists built in
`draw_information_panels` (src/main.py:408-419). -/
structure ChartSeries where
  fire_months : List String
  week_days : List String
  fire_data : List ℚ
  landslide_data : List ℚ
  wind_forecast : List ℚ
  temp_forecast : List ℚ
  rain_forecast : List ℚ
deriving DecidableEq, Repr

/-- `[random.uniform(a, b) for _ in range(n)]`: `n` successive uniform
draws threading the generator state. -/
def uniformList (a b : ℚ) : ℕ → RandState → List ℚ × RandState
  | 0, st => ([], st)
  | n + 1, st =>
    let u := uniformStep a b st
    let rest := uniformList a b n u.2
    (u.1 :: rest.1, rest.2)

/-- The five series drawn after `random.seed(int(lat * lon * 1000))`
(src/main.py:406-419), in source order: 12 fire values in [0,5), 12
landslide values in [0,5), 7 wind values in [0,25), 7 temperature
values in [20,42), 7 rain values in [0,100). -/
def seriesFromSeed (n : ℤ) : ChartSeries :=
  let s0 := seedState n
  let fire := uniformList 0 5 12 s0
  let land := uniformList 0 5 12 fire.2
  let wind := uniformList 0 25 7 land.2
  let temp := uniformList 20 42 7 wind.2
  let rain := uniformList 0 100 7 temp.2
  { fire_months := ["J", "F", "M", "A", "M", "J", "J", "A", "S", "O", "N", "D"]
    week_days := ["Mon", "Tue", "Wed", "Thu", "Fri", "Sat", "Sun"]
    fire_data := fire.1
    landslide_data := land.1
    wind_forecast := wind.1
    temp_forecast := temp.1
    rain_forecast := rain.1 }

/-- The chart-series synthesis step of `draw_information_panels`
(src/main.py:404-419): reseeds the global generator from the location
alone (the scalar does not appear), discarding the incoming state. -/
def chartSeriesData (latitude longitude : ℚ) (st0 : RandState) :
    ChartSeries :=
  let _ := st0
  seriesFromSeed (seedB latitude longitude)

/-- The full synthesized report content for one render call: metrics
plus the five chart series, as produced along the
`generate_placeholder_image → generate_gps_data / draw_information_panels`
path (src/main.py:294-298). -/
def renderData (latitude longitude scalar : ℚ) (st0 : RandState) :
    MetricSet × ChartSeries :=
  (generate_gps_data latitude longitude scalar st0,
   chartSeriesData latitude longitude st0)

/-- The draw order asserted by the spec sentence behind C6
(fire_risk, landslide_risk, elevation, slope, temperature,
rain_probability, wind_speed), as a second definition to be compared
with `metricsFromSeed`, which follows the source's actual order. -/
def specOrderMetrics (latitude longitude scalar : ℚ) : MetricSet :=
  let s0 := seedState (seedA latitude longitude scalar)
  let f := randIntStep 0 5 s0
  let l := randIntStep 0 5 f.2
  let h := randIntStep 0 300 l.2
  let sl := randIntStep 0 100 h.2
  let t := uniformStep 20 42 sl.2
  let r := randIntStep 0 100 t.2
  let w := randIntStep 0 25 r.2
  { gps_position := (latitude, longitude)
    fire_risk := f.1
    height := h.1
    landslide_risk := l.1
    slope := sl.1
    temperature := round1 t.1
    rain_probability := r.1
    wind_speed := w.1 }

/-! ## Panel layout (src/main.py:398-403, 647-652) -/

/-- A pixel-aligned rectangle `[x1, x2] × [y1, y2]` on the canvas, as
drawn by `draw.rectangle([x, y, x + w, y + h])` (PIL rectangles include
both corner coordinates). -/
structure Box where
  x1 : ℤ
  y1 : ℤ
  x2 : ℤ
  y2 : ℤ
deriving DecidableEq, Repr

/-- Canvas width of the 4:3 report image (src/main.py:255). -/
def canvasWidth : ℤ := 1600

/-- Canvas height of the 4:3 report image (src/main.py:255). -/
def canvasHeight : ℤ := 1200

/-- `panel_width = (width - 160) // 2` (src/main.py:399). -/
def panel_width : ℤ := (1600 - 160) / 2

/-- `panel_height = 250` (src/main.py:400). -/
def panel_height : ℤ := 250

/-- `start_y = 80` (src/main.py:401). -/
def start_y : ℤ := 80

/-- `margin = 50` (src/main.py:402). -/
def panelMargin : ℤ := 50

/-- The bounding box of panel `i`, src/main.py:648-652:
`col = i % 2; row = i // 2; x = margin + col * (panel_width + margin);
y = start_y + row * (panel_height + 25)`, with the border drawn from
`(x, y)` to `(x + panel_width, y + panel_height)` (src/main.py:664). -/
def panelBox (i : ℕ) : Box :=
  let col : ℤ := (i % 2 : ℕ)
  let row : ℤ := (i / 2 : ℕ)
  let x := panelMargin + col * (panel_width + panelMargin)
  let y := start_y + row * (panel_height + 25)
  { x1 := x, y1 := y, x2 := x + panel_width, y2 := y + panel_height }

/-- The eight panel bounding boxes, in panel order. -/
def panelBoxes : List Box :=
  (List.range 8).map panelBox

/-- Two boxes are disjoint when they share no pixel (the rectangles are
closed on all four sides). -/
def Box.disjointFrom (a b : Box) : Prop :=
  a.x2 < b.x1 ∨ b.x2 < a.x1 ∨ a.y2 < b.y1 ∨ b.y2 < a.y1

instance (a b : Box) : Decidable (a.disjointFrom b) := by
  unfold Box.disjointFrom
  infer_instance

/-- A box lies fully inside the 1600 × 1200 canvas. -/
def Box.insideCanvas (a : Box) : Prop :=
  0 ≤ a.x1 ∧ 0 ≤ a.y1 ∧ a.x1 ≤ a.x2 ∧ a.y1 ≤ a.y2 ∧
    a.x2 ≤ canvasWidth ∧ a.y2 ≤ canvasHeight

instance (a : Box) : Decidable a.insideCanvas := by
  unfold Box.insideCanvas
  infer_instance

/-- One entry of the `panels` list (src/main.py:421-430): icon file,
title, and chart type (content/description strings are formatting of
already-modelled data and carry no claim weight). -/
structure PanelEntry where
  icon : String
  title : String
  chart_type : String
deriving DecidableEq, Repr

/-- The `panels` list of src/main.py:421-430, in source order. -/
def panels : List PanelEntry :=
  [⟨"gps.png", "GPS Position", "none"⟩,
   ⟨"fire.jpg", "Fire Risk", "yearly"⟩,
   ⟨"height.jpg", "Elevation", "none"⟩,
   ⟨"landslides.jpg", "Landslide Risk", "yearly"⟩,
   ⟨"slope.png", "Slope", "none"⟩,
   ⟨"wind.jpg", "Wind Speed", "wind_forecast"⟩,
   ⟨"temperature.png", "Temperature", "temp_forecast"⟩,
   ⟨"weather.jpg", "Rain Forecast", "rain_forecast"⟩]

/-! ## Color mapping (src/main.py:432-451) -/

/-- `get_windfinder_color(value, chart_type)` (src/main.py:432-451):
ordered threshold tables for wind and temperature, fixed default
otherwise. -/
def get_windfinder_color (value : ℚ) (chart_type : String) : String :=
  if chart_type = "wind_forecast" then
    if value ≤ 5 then "#00FF00"
    else if value ≤ 10 then "#7FFF00"
    else if value ≤ 15 then "#FFFF00"
    else if value ≤ 20 then "#FFA500"
    else "#FF0000"
  else if chart_type = "temp_forecast" then
    if value ≤ 25 then "#0080FF"
    else if value ≤ 30 then "#00FF80"
    else if value ≤ 35 then "#00FF00"
    else if value ≤ 38 then "#FFFF00"
    else if value ≤ 40 then "#FFA500"
    else "#FF0000"
  else "#3182CE"

/-- Every color constant `get_windfinder_color` can produce. -/
def windfinderPalette : List String :=
  ["#00FF00", "#7FFF00", "#FFFF00", "#FFA500", "#FF0000",
   "#0080FF", "#00FF80", "#3182CE"]

/-! ## Chart rendering (src/main.py:453-644) -/

/-- The structured vector chart description `create_pygal_chart` builds
before rasterization (src/main.py:528-623): the x-labels and data it
passes to pygal (truncated to 7 for the weekly kinds), the per-bar
colors for the bar charts, the fixed y-domain, the title, and the
leading style color. -/
structure ChartDesc where
  xLabels : List String
  values : List ℚ
  barColors : List String
  yMin : ℚ
  yMax : ℚ
  title : String
  styleColor : String
deriving DecidableEq, Repr

/-- One bar drawn by the fallback chart renderer. -/
structure FallbackBar where
  x1 : ℤ
  y1 : ℤ
  x2 : ℤ
  y2 : ℤ
  color : String
deriving DecidableEq, Repr

/-- The content of a rendered chart raster: either the rasterization of
a vector chart description (cairosvg path) or the bars and text label
of the PIL fallback. -/
inductive RasterContent where
  | vector (desc : ChartDesc)
  | fallbackBars (bars : List FallbackBar) (label : String)
deriving DecidableEq, Repr

/-- A rendered raster: pixel dimensions plus chart content. -/
structure Raster where
  width : ℕ
  height : ℕ
  content : RasterContent
deriving DecidableEq, Repr

/-- Python `max(list)` for a nonempty list (the source only evaluates
it under an `if chart_data:` nonemptiness guard). -/
def listMax : List ℚ → ℚ
  | [] => 0
  | h :: t => t.foldl max h

/-- Boolean prefix test on character lists. -/
def charPrefixOf : List Char → List Char → Bool
  | [], _ => true
  | _ :: _, [] => false
  | a :: as, b :: bs => a = b && charPrefixOf as bs

/-- Boolean infix test on character lists: `pat` occurs contiguously in
`l`. -/
def charListHasInfix (l pat : List Char) : Bool :=
  match l with
  | [] => charPrefixOf pat []
  | _ :: t => charPrefixOf pat l || charListHasInfix t pat

/-- Python `pat in s` substring containment. -/
def strContainsSub (s pat : String) : Bool :=
  charListHasInfix s.toList pat.toList

/-- The per-chart-type fallback bar color (src/main.py:472-482):
substring tests on `chart_type.lower()`. -/
def fallbackColor (chart_type : String) : String :=
  let s := chart_type.toLower
  if strContainsSub s "fire" then "#FF6B6B"
  else if strContainsSub s "landslide" then "#8A2BE2"
  else if strContainsSub s "wind" then "#4ECDC4"
  else if strContainsSub s "temp" then "#45B7D1"
  else "#2563EB"

/-- `create_fallback_chart` (src/main.py:453-497): a fresh raster of
exactly the requested size, one proportional bar per element of
`chart_data` (no truncation; `chart_labels` is never read), bars drawn
only when the data is nonempty and its maximum is positive, plus a
`"Chart: <type>"` text label. -/
def create_fallback_chart (chart_type : String) (chart_data : List ℚ)
    (chart_labels : List String) (chart_width chart_height : ℕ) : Raster :=
  let _ := chart_labels
  let bars : List FallbackBar :=
    match chart_data with
    | [] => []
    | d :: ds =>
      let max_val := listMax (d :: ds)
      let bar_width : ℕ := chart_width / (d :: ds).length
      if 0 < max_val then
        (d :: ds).enum.map (fun p =>
          let bar_height : ℤ :=
            pythonInt ((p.2 / max_val) * ((chart_height : ℚ) - 40))
          let x1 : ℤ := p.1 * bar_width + 10
          let y1 : ℤ := (chart_height : ℤ) - bar_height - 20
          let x2 : ℤ := x1 + bar_width - 5
          let y2 : ℤ := (chart_height : ℤ) - 20
          ⟨x1, y1, x2, y2, fallbackColor chart_type⟩)
      else []
  ⟨chart_width, chart_height, .fallbackBars bars ("Chart: " ++ chart_type)⟩

/-- The chart description `create_pygal_chart` builds for each chart
type before entering the try-block (src/main.py:528-623).  `none`
models the unknown-type case, where the local variable `chart` is
never bound and a `NameError` escapes before any rendering. -/
def buildPygalChart (chart_type : String) (chart_data : List ℚ)
    (chart_labels : List String) (is_landslide : Bool)
    (chart_title : String) : Option ChartDesc :=
  if chart_type = "yearly" then
    some { xLabels := chart_labels
           values := chart_data
           barColors := []
           yMin := 0, yMax := 10
           title := chart_title
           styleColor := if is_landslide then "#8A2BE2" else "#E53E3E" }
  else if chart_type = "wind_forecast" ∨ chart_type = "temp_forecast" then
    some { xLabels := chart_labels.take 7
           values := chart_data.take 7
           barColors :=
             (chart_data.take 7).map (fun v => get_windfinder_color v chart_type)
           yMin := if chart_type = "wind_forecast" then 0 else 20
           yMax := if chart_type = "wind_forecast" then 25 else 42
           title := chart_title
           styleColor := "#E53E3E" }
  else if chart_type = "rain_forecast" then
    some { xLabels := chart_labels.take 7
           values := chart_data.take 7
           barColors := []
           yMin := 0, yMax := 100
           title := chart_title
           styleColor := "#2563EB" }
  else none

/-- `cairosvg.svg2png(bytestring=svg, output_width=w, output_height=h)`
(src/main.py:631-636), modelled by its contract: it rasterizes the
vector chart at exactly the requested output dimensions. -/
def svg2png (desc : ChartDesc) (output_width output_height : ℕ) : Raster :=
  ⟨output_width, output_height, .vector desc⟩

/-- `create_pygal_chart` (src/main.py:499-644): builds the chart
description, then tries the cairosvg path and on
`ImportError`/`OSError` (modelled by `cairoAvailable = false`) falls
back to `create_fallback_chart`, called with the untruncated
`chart_data` (src/main.py:642). -/
def create_pygal_chart (chart_type : String) (chart_data : List ℚ)
    (chart_labels : List String) (chart_width chart_height : ℕ)
    (is_landslide : Bool) (chart_title : String)
    (cairoAvailable : Bool) : Option Raster :=
  (buildPygalChart chart_type chart_data chart_labels is_landslide
      chart_title).map (fun desc =>
    if cairoAvailable then
      svg2png desc chart_width chart_height
    else
      create_fallback_chart chart_type chart_data chart_labels
        chart_width chart_height)

/-- The number of series data points a rendered raster actually shows:
the pygal data list on the vector path, one per bar on the fallback
path. -/
def usedPoints (r : Raster) : ℕ :=
  match r.content with
  | .vector desc => desc.values.length
  | .fallbackBars bars _ => bars.length

/-- The x-labels a rendered raster actually shows (the fallback path
never reads the labels). -/
def usedXLabels (r : Raster) : List String :=
  match r.content with
  | .vector desc => desc.xLabels
  | .fallbackBars _ _ => []

/-- State of the modelled generator after the seed and `k` raw draws. -/
def nthDrawState (n : ℤ) : ℕ → RandState
  | 0 => seedState n
  | k + 1 => randNext (nthDrawState n k)

/-! ## Helper lemmas -/

theorem randIntStep_mem (a b : ℤ) (st : RandState) (h : a ≤ b) :
    a ≤ (randIntStep a b st).1 ∧ (randIntStep a b st).1 ≤ b := by
  unfold randIntStep
  dsimp only
  have h1 : 0 ≤ ((randNext st).val : ℤ) % (b - a + 1) :=
    Int.emod_nonneg _ (by omega)
  have h2 : ((randNext st).val : ℤ) % (b - a + 1) < b - a + 1 :=
    Int.emod_lt_of_pos _ (by omega)
  omega

theorem uniformStep_mem (a b : ℚ) (st : RandState) (h : a ≤ b) :
    a ≤ (uniformStep a b st).1 ∧ (uniformStep a b st).1 ≤ b := by
  unfold uniformStep
  dsimp only
  have hv0 : (0 : ℚ) ≤ ((randNext st).val : ℚ) := by positivity
  have hv1 : ((randNext st).val : ℚ) ≤ 2 ^ 31 := by
    have hlt : (randNext st).val < 2 ^ 31 := Nat.mod_lt _ (by norm_num)
    exact_mod_cast hlt.le
  have hba : (0 : ℚ) ≤ b - a := sub_nonneg.mpr h
  constructor
  · have hnn : 0 ≤ (b - a) * ((randNext st).val : ℚ) / 2 ^ 31 :=
      div_nonneg (mul_nonneg hba hv0) (by norm_num)
    linarith
  · have hle : (b - a) * ((randNext st).val : ℚ) / 2 ^ 31 ≤ b - a := by
      rw [div_le_iff₀ (by norm_num : (0 : ℚ) < 2 ^ 31)]
      exact mul_le_mul_of_nonneg_left hv1 hba
    linarith

theorem round1_mem (q : ℚ) (h1 : 20 ≤ q) (h2 : q ≤ 42) :
    20 ≤ round1 q ∧ round1 q ≤ 42 := by
  unfold round1
  rw [round_eq]
  constructor
  · have h3 : (200 : ℤ) ≤ ⌊q * 10 + 1 / 2⌋ := by
      apply Int.le_floor.mpr
      push_cast
      linarith
    have h4 : (200 : ℚ) ≤ (⌊q * 10 + 1 / 2⌋ : ℚ) := by exact_mod_cast h3
    linarith
  · have h5 : ⌊q * 10 + 1 / 2⌋ < 421 := by
      apply Int.floor_lt.mpr
      push_cast
      linarith
    have h6 : (⌊q * 10 + 1 / 2⌋ : ℚ) ≤ 420 := by exact_mod_cast Int.lt_add_one_iff.mp h5
    linarith

theorem metricsFromSeed_range (n : ℤ) (base : MetricSet) :
    (0 ≤ (metricsFromSeed n base).fire_risk ∧ (metricsFromSeed n base).fire_risk ≤ 5) ∧
    (0 ≤ (metricsFromSeed n base).height ∧ (metricsFromSeed n base).height ≤ 300) ∧
    (0 ≤ (metricsFromSeed n base).landslide_risk ∧ (metricsFromSeed n base).landslide_risk ≤ 5) ∧
    (0 ≤ (metricsFromSeed n base).slope ∧ (metricsFromSeed n base).slope ≤ 100) ∧
    (20 ≤ (metricsFromSeed n base).temperature ∧ (metricsFromSeed n base).temperature ≤ 42) ∧
    (0 ≤ (metricsFromSeed n base).rain_probability ∧ (metricsFromSeed n base).rain_probability ≤ 100) ∧
    (0 ≤ (metricsFromSeed n base).wind_speed ∧ (metricsFromSeed n base).wind_speed ≤ 25) := by
  unfold metricsFromSeed
  dsimp only
  refine ⟨?_, ?_, ?_, ?_, ?_, ?_, ?_⟩
  · exact randIntStep_mem 0 5 _ (by norm_num)
  · exact randIntStep_mem 0 300 _ (by norm_num)
  · exact randIntStep_mem 0 5 _ (by norm_num)
  · exact randIntStep_mem 0 100 _ (by norm_num)
  · obtain ⟨u1, u2⟩ := uniformStep_mem 20 42 _ (by norm_num)
    exact round1_mem _ u1 u2
  · exact randIntStep_mem 0 100 _ (by norm_num)
  · exact randIntStep_mem 0 25 _ (by norm_num)

theorem pymod_eq_fract (q m : ℚ) (hm : m ≠ 0) :
    pymod q m = m * Int.fract (q / m) := by
  unfold pymod Int.fract
  field_simp

theorem pymod_nonneg (q m : ℚ) (hm : 0 < m) : 0 ≤ pymod q m := by
  rw [pymod_eq_fract q m hm.ne']
  exact mul_nonneg hm.le (Int.fract_nonneg _)

theorem pythonInt_eq_floor (q : ℚ) (h : 0 ≤ q) : pythonInt q = ⌊q⌋ := by
  unfold pythonInt
  rw [if_pos h]

theorem pymod_add_right (q m : ℚ) (hm : m ≠ 0) :
    pymod (q + m) m = pymod q m := by
  unfold pymod
  have hdiv : (q + m) / m = q / m + 1 := by
    rw [add_div, div_self hm]
  rw [hdiv, Int.floor_add_one]
  push_cast
  ring

/-! ## Claim theorems -/

/-- C1: Two calls to the render data path with identical
(latitude, longitude, scalar) produce identical MetricSet values and
identical data for all five chart series: both `generate_gps_data` and
the series synthesis reseed the global generator from the inputs, so
the result is independent of whatever generator state (`st1`, `st2`)
was left behind by earlier calls. -/
theorem C1_determinism (lat lon scalar : ℚ) (st1 st2 : RandState) :
    renderData lat lon scalar st1 = renderData lat lon scalar st2 :=
  rfl

/-- C2: For every valid input, the synthesized metrics lie in their
documented ranges: fire_risk, landslide_risk ∈ [0,5], height ∈ [0,300],
slope ∈ [0,100], temperature ∈ [20,42], rain_probability ∈ [0,100],
wind_speed ∈ [0,25]. -/
theorem C2_metric_ranges (lat lon scalar : ℚ) (st : RandState)
    (_hlat1 : -90 ≤ lat) (_hlat2 : lat ≤ 90)
    (_hlon1 : -180 ≤ lon) (_hlon2 : lon ≤ 180) :
    (0 ≤ (generate_gps_data lat lon scalar st).fire_risk ∧
      (generate_gps_data lat lon scalar st).fire_risk ≤ 5) ∧
    (0 ≤ (generate_gps_data lat lon scalar st).height ∧
      (generate_gps_data lat lon scalar st).height ≤ 300) ∧
    (0 ≤ (generate_gps_data lat lon scalar st).landslide_risk ∧
      (generate_gps_data lat lon scalar st).landslide_risk ≤ 5) ∧
    (0 ≤ (generate_gps_data lat lon scalar st).slope ∧
      (generate_gps_data lat lon scalar st).slope ≤ 100) ∧
    (20 ≤ (generate_gps_data lat lon scalar st).temperature ∧
      (generate_gps_data lat lon scalar st).temperature ≤ 42) ∧
    (0 ≤ (generate_gps_data lat lon scalar st).rain_probability ∧
      (generate_gps_data lat lon scalar st).rain_probability ≤ 100) ∧
    (0 ≤ (generate_gps_data lat lon scalar st).wind_speed ∧
      (generate_gps_data lat lon scalar st).wind_speed ≤ 25) :=
  metricsFromSeed_range (seedA lat lon scalar) _

/-- Witness for C2 at (0, 0, 0) from generator state 0. -/
theorem C2_witness :
    ((-90 : ℚ) ≤ 0 ∧ (0 : ℚ) ≤ 90 ∧ (-180 : ℚ) ≤ 0 ∧ (0 : ℚ) ≤ 180) ∧
    ((0 ≤ (generate_gps_data 0 0 0 ⟨0⟩).fire_risk ∧
       (generate_gps_data 0 0 0 ⟨0⟩).fire_risk ≤ 5) ∧
     (0 ≤ (generate_gps_data 0 0 0 ⟨0⟩).height ∧
       (generate_gps_data 0 0 0 ⟨0⟩).height ≤ 300) ∧
     (0 ≤ (generate_gps_data 0 0 0 ⟨0⟩).landslide_risk ∧
       (generate_gps_data 0 0 0 ⟨0⟩).landslide_risk ≤ 5) ∧
     (0 ≤ (generate_gps_data 0 0 0 ⟨0⟩).slope ∧
       (generate_gps_data 0 0 0 ⟨0⟩).slope ≤ 100) ∧
     (20 ≤ (generate_gps_data 0 0 0 ⟨0⟩).temperature ∧
       (generate_gps_data 0 0 0 ⟨0⟩).temperature ≤ 42) ∧
     (0 ≤ (generate_gps_data 0 0 0 ⟨0⟩).rain_probability ∧
       (generate_gps_data 0 0 0 ⟨0⟩).rain_probability ≤ 100) ∧
     (0 ≤ (generate_gps_data 0 0 0 ⟨0⟩).wind_speed ∧
       (generate_gps_data 0 0 0 ⟨0⟩).wind_speed ≤ 25)) :=
  ⟨⟨by norm_num, by norm_num, by norm_num, by norm_num⟩,
   C2_metric_ranges 0 0 0 ⟨0⟩ (by norm_num) (by norm_num) (by norm_num)
     (by norm_num)⟩

/-- C3: For every series actually rendered (the four chart types built
by `create_pygal_chart`) and every requested size, chart rendering
never surfaces a failure: with the cairosvg backend available the
vector chart is rasterized at exactly the requested size, and with the
backend unavailable or failing, `create_fallback_chart` produces a
raster of exactly the requested (width, height). -/
theorem C3_chart_total (chart_type : String) (chart_data : List ℚ)
    (chart_labels : List String) (w h : ℕ) (il : Bool) (title : String)
    (cairo : Bool)
    (hty : chart_type = "yearly" ∨ chart_type = "wind_forecast" ∨
      chart_type = "temp_forecast" ∨ chart_type = "rain_forecast") :
    ∃ r : Raster,
      create_pygal_chart chart_type chart_data chart_labels w h il title
          cairo = some r ∧
        r.width = w ∧ r.height = h := by
  have key : ∃ d, buildPygalChart chart_type chart_data chart_labels il
      title = some d := by
    rcases hty with rfl | rfl | rfl | rfl <;> exact ⟨_, rfl⟩
  obtain ⟨d, hd⟩ := key
  cases cairo with
  | true =>
    exact ⟨svg2png d w h, by simp [create_pygal_chart, hd], rfl, rfl⟩
  | false =>
    exact ⟨create_fallback_chart chart_type chart_data chart_labels w h,
      by simp [create_pygal_chart, hd], rfl, rfl⟩

/-- Witness for C3: a weekly wind chart at 120 × 90 with the backend
unavailable still yields a raster of exactly 120 × 90. -/
theorem C3_witness :
    (("wind_forecast" : String) = "yearly" ∨
      ("wind_forecast" : String) = "wind_forecast" ∨
      ("wind_forecast" : String) = "temp_forecast" ∨
      ("wind_forecast" : String) = "rain_forecast") ∧
    ∃ r : Raster,
      create_pygal_chart "wind_forecast" [3, 18] ["Mon", "Tue"] 120 90
          false "week forecast" false = some r ∧
        r.width = 120 ∧ r.height = 90 :=
  ⟨Or.inr (Or.inl rfl),
   C3_chart_total "wind_forecast" [3, 18] ["Mon", "Tue"] 120 90 false
     "week forecast" false (Or.inr (Or.inl rfl))⟩

/-- C4: The panel layout produces exactly 8 bounding boxes in row-major
2-columns-by-4-rows order (the explicit list below enumerates them),
the boxes are pairwise disjoint, each lies fully inside the 1600 × 1200
canvas, and panel index i maps to the fixed semantic panel order GPS,
Fire, Elevation, Landslide, Slope, Wind, Temperature, Rain. -/
theorem C4_panel_layout :
    panelBoxes.length = 8 ∧
    panelBoxes =
      [⟨50, 80, 770, 330⟩, ⟨820, 80, 1540, 330⟩,
       ⟨50, 355, 770, 605⟩, ⟨820, 355, 1540, 605⟩,
       ⟨50, 630, 770, 880⟩, ⟨820, 630, 1540, 880⟩,
       ⟨50, 905, 770, 1155⟩, ⟨820, 905, 1540, 1155⟩] ∧
    (∀ i j : Fin 8, i ≠ j → (panelBox i).disjointFrom (panelBox j)) ∧
    (∀ i : Fin 8, (panelBox i).insideCanvas) ∧
    panels.length = 8 ∧
    panels.map PanelEntry.title =
      ["GPS Position", "Fire Risk", "Elevation", "Landslide Risk",
       "Slope", "Wind Speed", "Temperature", "Rain Forecast"] := by
  refine ⟨rfl, rfl, by decide, by decide, rfl, rfl⟩

/-- C5 counterexample: the series seed is computed with Python `int`,
which truncates toward zero, not with floor.  At latitude 1/2 and
longitude -1/1000 (both in range) the product lat·lon·1000 = -1/2, the
code's seed is 0, but floor gives -1 — the claim's formula is wrong for
negative non-integer products. -/
theorem C5_counterexample :
    seedB (1 / 2) (-1 / 1000) ≠ ⌊((1 / 2 : ℚ) * (-1 / 1000) * 1000)⌋ := by
  have h1 : seedB (1 / 2) (-1 / 1000) = 0 := by
    unfold seedB pythonInt
    rw [if_neg (by norm_num)]
    norm_num
  have h2 : ⌊((1 / 2 : ℚ) * (-1 / 1000) * 1000)⌋ = -1 := by norm_num
  rw [h1, h2]
  decide

/-- C5 amended: the MetricSet seed is exactly
floor((lat·1000 + lon·1000 + scalar·100) mod 1000) — Python `%` yields
a value in [0, 1000), where `int` coincides with floor — while the
series seed is the truncation toward zero of lat·lon·1000, which equals
floor(lat·lon·1000) only when the product is nonnegative (or an
integer). -/
theorem C5_seeds_amended (lat lon scalar : ℚ) :
    seedA lat lon scalar =
      ⌊pymod (lat * 1000 + lon * 1000 + scalar * 100) 1000⌋ ∧
    seedB lat lon = pythonInt (lat * lon * 1000) ∧
    (0 ≤ lat * lon → seedB lat lon = ⌊lat * lon * 1000⌋) := by
  refine ⟨?_, rfl, ?_⟩
  · unfold seedA
    exact pythonInt_eq_floor _ (pymod_nonneg _ _ (by norm_num))
  · intro hprod
    unfold seedB
    exact pythonInt_eq_floor _ (by positivity)

/-- Witness for C5 amended at (2, 3, 5): both seeds take their floor
form on a nonnegative product. -/
theorem C5_witness :
    (0 : ℚ) ≤ 2 * 3 ∧
    seedA 2 3 5 = ⌊pymod ((2 : ℚ) * 1000 + 3 * 1000 + 5 * 100) 1000⌋ ∧
    seedB 2 3 = ⌊((2 : ℚ) * 3 * 1000)⌋ :=
  ⟨by norm_num, (C5_seeds_amended 2 3 5).1,
   (C5_seeds_amended 2 3 5).2.2 (by norm_num)⟩

/-- C6 counterexample: the seeded generator is NOT consumed with
fire_risk first — the code draws height (elevation) first
(src/main.py:312) and fire_risk second (src/main.py:315).  At input
(0, 0, 0) the fire_risk produced by the code differs from the value the
spec's draw order (fire_risk as the first draw) would give. -/
theorem C6_counterexample :
    (generate_gps_data 0 0 0 ⟨0⟩).fire_risk ≠
      (specOrderMetrics 0 0 0).fire_risk := by
  have hA : seedA 0 0 0 = 0 := by
    unfold seedA pymod pythonInt
    norm_num
  have h1 : (generate_gps_data 0 0 0 ⟨0⟩).fire_risk =
      (randIntStep 0 5 (randIntStep 0 300 (seedState (seedA 0 0 0))).2).1 := rfl
  have h2 : (specOrderMetrics 0 0 0).fire_risk =
      (randIntStep 0 5 (seedState (seedA 0 0 0))).1 := rfl
  rw [h1, h2, hA]
  decide

/-- C6 amended: the seeded generator for MetricSet fields is consumed
in the source's order — height (elevation) first, then fire_risk,
landslide_risk, slope, temperature, rain_probability, wind_speed — so
each field's value is the draw at that position of the seeded
sequence. -/
theorem C6_order_amended (lat lon scalar : ℚ) (st : RandState) :
    (generate_gps_data lat lon scalar st).height =
      (randIntStep 0 300 (nthDrawState (seedA lat lon scalar) 0)).1 ∧
    (generate_gps_data lat lon scalar st).fire_risk =
      (randIntStep 0 5 (nthDrawState (seedA lat lon scalar) 1)).1 ∧
    (generate_gps_data lat lon scalar st).landslide_risk =
      (randIntStep 0 5 (nthDrawState (seedA lat lon scalar) 2)).1 ∧
    (generate_gps_data lat lon scalar st).slope =
      (randIntStep 0 100 (nthDrawState (seedA lat lon scalar) 3)).1 ∧
    (generate_gps_data lat lon scalar st).temperature =
      round1 (uniformStep 20 42 (nthDrawState (seedA lat lon scalar) 4)).1 ∧
    (generate_gps_data lat lon scalar st).rain_probability =
      (randIntStep 0 100 (nthDrawState (seedA lat lon scalar) 5)).1 ∧
    (generate_gps_data lat lon scalar st).wind_speed =
      (randIntStep 0 25 (nthDrawState (seedA lat lon scalar) 6)).1 :=
  ⟨rfl, rfl, rfl, rfl, rfl, rfl, rfl⟩

/-- C7: The color mapper satisfies the spot checks — wind 3 maps to
pure green #00FF00, wind 23 to red #FF0000, temperature 36 to yellow
#FFFF00, temperature 41 to red #FF0000 — every chart kind other than
wind/temperature gets the fixed default #3182CE, and every value maps
to exactly one color from the fixed palette (the mapper is a total
function). -/
theorem C7_color_mapper :
    get_windfinder_color 3 "wind_forecast" = "#00FF00" ∧
    get_windfinder_color 23 "wind_forecast" = "#FF0000" ∧
    get_windfinder_color 36 "temp_forecast" = "#FFFF00" ∧
    get_windfinder_color 41 "temp_forecast" = "#FF0000" ∧
    (∀ v : ℚ, ∀ t : String, t ≠ "wind_forecast" → t ≠ "temp_forecast" →
      get_windfinder_color v t = "#3182CE") ∧
    (∀ v : ℚ, ∀ t : String, get_windfinder_color v t ∈ windfinderPalette) := by
  refine ⟨rfl, rfl, rfl, rfl, ?_, ?_⟩
  · intro v t h1 h2
    simp [get_windfinder_color, h1, h2]
  · intro v t
    unfold get_windfinder_color windfinderPalette
    split_ifs <;> simp

/-- Witness for C7: a yearly chart kind gets the default color. -/
theorem C7_witness : get_windfinder_color 7 "yearly" = "#3182CE" :=
  C7_color_mapper.2.2.2.2.1 7 "yearly" (by decide) (by decide)

/-- C8 counterexample: truncation to 7 points does NOT happen on every
rendering path.  A 10-point wind series rendered through the fallback
path (backend unavailable) draws one bar per input point: 10 bars, not
7 (src/main.py:464 iterates over all of chart_data). -/
theorem C8_counterexample :
    (create_pygal_chart "wind_forecast" [1, 2, 3, 4, 5, 6, 7, 8, 9, 10]
        ["d1", "d2", "d3", "d4", "d5", "d6", "d7", "d8", "d9", "d10"]
        100 80 false "" false).map usedPoints = some 10 ∧
      (10 : ℕ) ≠ 7 := by
  exact ⟨rfl, by decide⟩

/-- C8 amended: for the three weekly chart kinds, the preferred pygal
path uses only the first 7 data points and the first 7 labels; the
fallback path instead draws one bar per input data point (using all of
them) and reads no labels. -/
theorem C8_truncation_amended (chart_type : String) (chart_data : List ℚ)
    (chart_labels : List String) (w h : ℕ) (il : Bool) (title : String)
    (hty : chart_type = "wind_forecast" ∨ chart_type = "temp_forecast" ∨
      chart_type = "rain_forecast") :
    ((create_pygal_chart chart_type chart_data chart_labels w h il title
        true).map usedPoints = some (min 7 chart_data.length) ∧
     (create_pygal_chart chart_type chart_data chart_labels w h il title
        true).map usedXLabels = some (chart_labels.take 7)) ∧
    (chart_data ≠ [] → 0 < listMax chart_data →
      (create_pygal_chart chart_type chart_data chart_labels w h il title
        false).map usedPoints = some chart_data.length) := by
  rcases hty with rfl | rfl | rfl <;>
    · constructor
      · constructor
        · simp [create_pygal_chart, buildPygalChart, svg2png, usedPoints,
            List.length_take]
        · simp [create_pygal_chart, buildPygalChart, svg2png, usedXLabels]
      · intro hne hmax
        rcases chart_data with _ | ⟨d, ds⟩
        · exact absurd rfl hne
        · simp only [create_pygal_chart, buildPygalChart,
            create_fallback_chart, usedPoints, Option.map, listMax] at hmax ⊢
          simp [hmax, List.length_map, List.enum_length]

/-- Witness for C8 amended: a 9-point rain series keeps 7 points on the
pygal path but renders 9 bars on the fallback path. -/
theorem C8_witness :
    ((create_pygal_chart "rain_forecast" [1, 2, 3, 4, 5, 6, 7, 8, 9]
        ["Mon", "Tue"] 50 40 false "" true).map usedPoints =
      some (min 7 9)) ∧
    ((create_pygal_chart "rain_forecast" [1, 2, 3, 4, 5, 6, 7, 8, 9]
        ["Mon", "Tue"] 50 40 false "" false).map usedPoints = some 9) :=
  ⟨(C8_truncation_amended "rain_forecast" [1, 2, 3, 4, 5, 6, 7, 8, 9]
      ["Mon", "Tue"] 50 40 false "" (Or.inr (Or.inr rfl))).1.1,
   (C8_truncation_amended "rain_forecast" [1, 2, 3, 4, 5, 6, 7, 8, 9]
      ["Mon", "Tue"] 50 40 false "" (Or.inr (Or.inr rfl))).2
     (by decide) (by decide)⟩

/-- C9: When latitude and longitude both lie in [-90, 90], swapping
them leaves all seeded synthesis unchanged: both seeds are symmetric in
the two coordinates, so every MetricSet metric and all five chart
series coincide between (a, b, scalar) and (b, a, scalar). -/
theorem C9_swap_symmetry (a b scalar : ℚ) (st : RandState)
    (_h1 : -90 ≤ a) (_h2 : a ≤ 90) (_h3 : -90 ≤ b) (_h4 : b ≤ 90) :
    ((generate_gps_data a b scalar st).fire_risk =
        (generate_gps_data b a scalar st).fire_risk ∧
      (generate_gps_data a b scalar st).height =
        (generate_gps_data b a scalar st).height ∧
      (generate_gps_data a b scalar st).landslide_risk =
        (generate_gps_data b a scalar st).landslide_risk ∧
      (generate_gps_data a b scalar st).slope =
        (generate_gps_data b a scalar st).slope ∧
      (generate_gps_data a b scalar st).temperature =
        (generate_gps_data b a scalar st).temperature ∧
      (generate_gps_data a b scalar st).rain_probability =
        (generate_gps_data b a scalar st).rain_probability ∧
      (generate_gps_data a b scalar st).wind_speed =
        (generate_gps_data b a scalar st).wind_speed) ∧
    chartSeriesData a b st = chartSeriesData b a st := by
  have hA : seedA a b scalar = seedA b a scalar := by
    unfold seedA
    have hx : a * 1000 + b * 1000 + scalar * 100 =
        b * 1000 + a * 1000 + scalar * 100 := by ring
    rw [hx]
  have hB : seedB a b = seedB b a := by
    unfold seedB
    rw [mul_comm a b]
  simp only [generate_gps_data, chartSeriesData]
  rw [hA, hB]
  exact ⟨⟨rfl, rfl, rfl, rfl, rfl, rfl, rfl⟩, rfl⟩

/-- Witness for C9 at (1, 2): the metrics and series agree after the
swap. -/
theorem C9_witness :
    ((-90 : ℚ) ≤ 1 ∧ (1 : ℚ) ≤ 90 ∧ (-90 : ℚ) ≤ 2 ∧ (2 : ℚ) ≤ 90) ∧
    (((generate_gps_data 1 2 0 ⟨0⟩).fire_risk =
        (generate_gps_data 2 1 0 ⟨0⟩).fire_risk ∧
      (generate_gps_data 1 2 0 ⟨0⟩).height =
        (generate_gps_data 2 1 0 ⟨0⟩).height ∧
      (generate_gps_data 1 2 0 ⟨0⟩).landslide_risk =
        (generate_gps_data 2 1 0 ⟨0⟩).landslide_risk ∧
      (generate_gps_data 1 2 0 ⟨0⟩).slope =
        (generate_gps_data 2 1 0 ⟨0⟩).slope ∧
      (generate_gps_data 1 2 0 ⟨0⟩).temperature =
        (generate_gps_data 2 1 0 ⟨0⟩).temperature ∧
      (generate_gps_data 1 2 0 ⟨0⟩).rain_probability =
        (generate_gps_data 2 1 0 ⟨0⟩).rain_probability ∧
      (generate_gps_data 1 2 0 ⟨0⟩).wind_speed =
        (generate_gps_data 2 1 0 ⟨0⟩).wind_speed) ∧
     chartSeriesData 1 2 ⟨0⟩ = chartSeriesData 2 1 ⟨0⟩) :=
  ⟨⟨by norm_num, by norm_num, by norm_num, by norm_num⟩,
   C9_swap_symmetry 1 2 0 ⟨0⟩ (by norm_num) (by norm_num) (by norm_num)
     (by norm_num)⟩

/-- C10: For valid coordinates, the synthesized report content for
scalar s + 10 equals that for scalar s: the MetricSet seed sees the
scalar only through (scalar·100) mod 1000, and the chart series seed
does not involve the scalar at all. -/
theorem C10_scalar_period (lat lon scalar : ℚ) (st : RandState)
    (_hlat1 : -90 ≤ lat) (_hlat2 : lat ≤ 90)
    (_hlon1 : -180 ≤ lon) (_hlon2 : lon ≤ 180) :
    renderData lat lon (scalar + 10) st = renderData lat lon scalar st := by
  have hA : seedA lat lon (scalar + 10) = seedA lat lon scalar := by
    unfold seedA
    have hx : lat * 1000 + lon * 1000 + (scalar + 10) * 100 =
        (lat * 1000 + lon * 1000 + scalar * 100) + 1000 := by ring
    rw [hx, pymod_add_right _ _ (by norm_num)]
  simp only [renderData, generate_gps_data, chartSeriesData]
  rw [hA]

/-- Witness for C10 at (1, 2, 5): scalar 15 reproduces scalar 5's
output. -/
theorem C10_witness :
    ((-90 : ℚ) ≤ 1 ∧ (1 : ℚ) ≤ 90 ∧ (-180 : ℚ) ≤ 2 ∧ (2 : ℚ) ≤ 180) ∧
    renderData 1 2 (5 + 10) ⟨0⟩ = renderData 1 2 5 ⟨0⟩ :=
  ⟨⟨by norm_num, by norm_num, by norm_num, by norm_num⟩,
   C10_scalar_period 1 2 5 ⟨0⟩ (by norm_num) (by norm_num) (by norm_num)
     (by norm_num)⟩
